import Mathlib

/-!
# Verification of the arcade-game core (js/app.js and the engine file)

A shallow embedding of the entity model of the game, collision detector,
game-state machine and loop driver, with theorems checking the
natural-language specification against it.

Pixel positions and speeds are real-valued in the source (JS doubles);
they are embedded as rationals.  The two calls to `Math.random()` that
feed an enemy respawn are made explicit arguments `r1`, `r2` ranging over
`[0, 1)`.  Sprite widths come from the external `Resources` collaborator,
so they are passed as explicit parameters (`ew` for the enemy sprite,
`pw` for the player sprite; both are 101 for the shipped assets).
-/

namespace Arcade

/-! ## Global constants (top of app.js) -/

def PLAYER_WIDTH_OFFSET : ℚ := 23

def VISIBLE_ROW_HEIGHT : ℚ := 83

def ROW_HEIGHT_OFFSET : ℚ := 25

def gsCollisionLimit : ℕ := 3

def gsEnemySpeedAdjustor : ℚ := 0

def gsEnemyCount : ℕ := 3

def gsBoardColumns : ℤ := 5

/-! ## Enemy entity -/

structure Enemy where
  x : ℚ
  y : ℚ
  speed : ℚ
  deriving DecidableEq, Repr

/-- Source `Enemy.prototype.setSpeed`: `Math.floor(Math.random()*(400-100)) + 100
+ gsEnemySpeedAdjustor`, with the random draw `r ∈ [0,1)` explicit. -/
def setSpeed (r : ℚ) : ℚ :=
  let maxSpeed : ℚ := 400
  let minSpeed : ℚ := 100
  (⌊r * (maxSpeed - minSpeed)⌋ : ℚ) + minSpeed + gsEnemySpeedAdjustor

/-- Source `Enemy.prototype.setRow`: `((Math.floor(Math.random()*(4-1)) + 1) *
VISIBLE_ROW_HEIGHT) - ROW_HEIGHT_OFFSET`, with the random draw explicit. -/
def setRow (r : ℚ) : ℚ :=
  let maxRow : ℚ := 4
  let minRow : ℚ := 1
  ((⌊r * (maxRow - minRow)⌋ : ℚ) + 1) * VISIBLE_ROW_HEIGHT - ROW_HEIGHT_OFFSET

/-- Source `Enemy.prototype.spawn`: reset speed, row and horizontal position. -/
def Enemy.spawn (r1 r2 : ℚ) (e : Enemy) : Enemy :=
  { e with speed := setSpeed r1, y := setRow r2, x := 0 }

/-- Source `Enemy.prototype.update(dt)`: advance by `speed * dt`; if the position
passes the track width (`spriteWidth * gsBoardColumns`), respawn. -/
def Enemy.update (ew r1 r2 dt : ℚ) (e : Enemy) : Enemy :=
  let moved : Enemy := { e with x := e.x + e.speed * dt }
  if moved.x > ew * (gsBoardColumns : ℚ) then moved.spawn r1 r2 else moved

/-! ## Player entity -/

structure Player where
  col : ℤ
  row : ℤ
  x : ℚ
  y : ℚ
  collisionCount : ℕ
  deriving DecidableEq, Repr

/-- Source `Player.prototype.goToHome`: reset grid position to the start square. -/
def Player.goToHome (p : Player) : Player :=
  { p with col := 2, row := 5 }

/-- Source `Player.prototype.crash`: return home and bump the collision counter.
The derived pixel position `x`, `y` is not touched. -/
def Player.crash (p : Player) : Player :=
  let p1 := p.goToHome
  { p1 with collisionCount := p1.collisionCount + 1 }

/-- Source `Player.prototype.update`: derive the pixel position from the grid
position (`pw` is the player sprite width from `Resources`). -/
def Player.update (pw : ℚ) (p : Player) : Player :=
  { p with
    x := (p.col : ℚ) * pw
    y := (p.row : ℚ) * VISIBLE_ROW_HEIGHT - ROW_HEIGHT_OFFSET }

/-- Source `Player.prototype.handleInput(keyMove)`: move one square in the given
direction, then clamp to the board.  The argument is `none` when the keyup
listener passes `undefined` (any non-arrow key). -/
def Player.handleInput (keyMove : Option String) (p : Player) : Player :=
  let maxCol : ℤ := gsBoardColumns - 1
  let minCol : ℤ := 0
  let minRow : ℤ := 0
  let maxRow : ℤ := 5
  let c1 : ℤ := if keyMove = some "left" then p.col - 1 else p.col
  let r1 : ℤ := if keyMove = some "up" then p.row - 1 else p.row
  let c2 : ℤ := if keyMove = some "right" then c1 + 1 else c1
  let r2 : ℤ := if keyMove = some "down" then r1 + 1 else r1
  let c3 : ℤ := if c2 > maxCol then maxCol else c2
  let c4 : ℤ := if c3 < minCol then minCol else c3
  let r3 : ℤ := if r2 < minRow then minRow else r2
  let r4 : ℤ := if r3 > maxRow then maxRow else r3
  { p with col := c4, row := r4 }

/-- Source `Enemy.prototype.collided`: if this enemy shares the row of the player,
test the visible bounding edges for overlap; on overlap call
`player.crash()` and report `true`.  The right edge of the player sprite is
computed from the width `ew` of the enemy sprite, exactly as in the source
(`Resources.get(this.sprite).width` with `this` the enemy). -/
def Enemy.collided (ew : ℚ) (e : Enemy) (p : Player) : Player × Bool :=
  if e.y = p.y then
    let pLeft := p.x + PLAYER_WIDTH_OFFSET
    let pRight := pLeft + (ew - PLAYER_WIDTH_OFFSET)
    let eLeft := e.x
    let eRight := eLeft + ew
    if eRight ≥ pLeft ∧ pRight ≥ eLeft then (p.crash, true) else (p, false)
  else (p, false)

/-- Source `allowedKeys` lookup in the keyup listener: arrow key codes map to
direction strings, anything else to `undefined` (`none`). -/
def allowedKeys (keyCode : ℕ) : Option String :=
  if keyCode = 37 then some "left"
  else if keyCode = 38 then some "up"
  else if keyCode = 39 then some "right"
  else if keyCode = 40 then some "down"
  else none

/-! ## Engine state

The engine keeps `requestId` (a JS number or `undefined`, embedded as
`Option ℕ` with `none` for `undefined`), the last tick time, and the
globally shared `player` and `allEnemies`.  The host browser side is
modelled by `pending` (whether an animation frame callback is queued;
`requestAnimationFrame` queues one and returns a fresh positive id,
`cancelAnimationFrame` removes it) together with `nextId`, the id
counter.  Canvas output is modelled by `scoreText` (the lives text drawn
by `renderScore` this render, if any) and `banner` (the last status
overlay drawn by `displayStatus`).  Button enablement mirrors the three
DOM buttons. -/
structure EngineState where
  requestId : Option ℕ
  pending : Bool
  nextId : ℕ
  lastTime : ℚ
  player : Player
  enemies : List Enemy
  scoreText : Option ℤ
  banner : Option String
  buttonStartDisabled : Bool
  buttonResetDisabled : Bool
  buttonStopDisabled : Bool
  deriving DecidableEq, Repr

/-- JS truthiness of `requestId`: `undefined` and `0` are falsy. -/
def truthy : Option ℕ → Bool
  | none => false
  | some n => n ≠ 0

/-- The keyup listener: unconditionally forwards the (possibly
`undefined`) direction to `player.handleInput`. -/
def keyupListener (keyCode : ℕ) (s : EngineState) : EngineState :=
  { s with player := s.player.handleInput (allowedKeys keyCode) }

/-- Lives shown by `renderScore`: `gsCollisionLimit - player.collisionCount`
(JS subtraction, so an integer that may be negative). -/
def livesRemaining (p : Player) : ℤ :=
  (gsCollisionLimit : ℤ) - (p.collisionCount : ℤ)

/-- Source `renderScore`: clears the score area and draws the lives text only
when `requestId` is truthy (a game is in progress). -/
def renderScore (s : EngineState) : EngineState :=
  { s with
    scoreText := if truthy s.requestId then some (livesRemaining s.player) else none }

/-- Source `renderBoard`: draws the background grid (no observable state here)
and then the score area. -/
def renderBoard (s : EngineState) : EngineState :=
  renderScore s

/-- Source `renderEntities`: draws each enemy and the player; pure output, no
observable state change in the embedding. -/
def renderEntities (s : EngineState) : EngineState :=
  s

/-- Source `render`: board first, then entities. -/
def render (s : EngineState) : EngineState :=
  renderEntities (renderBoard s)

/-- Source `updateEntities(dt)`: update every enemy with `dt` (each potential
respawn consumes its own random pair `rnd i`), then the derived
pixel position of the player. -/
def updateEntities (ew pw : ℚ) (rnd : ℕ → ℚ × ℚ) (dt : ℚ) (s : EngineState) :
    EngineState :=
  { s with
    enemies := s.enemies.enum.map fun ie =>
      ie.2.update ew (rnd ie.1).1 (rnd ie.1).2 dt
    player := s.player.update pw }

/-- Source `checkCollisions`: the source iterates with `Array.some`, but the
callback body is `enemy.collided();` with no `return`, so the callback
always yields `undefined` (falsy) and `some` visits every enemy; each
call threads its effect on the player. -/
def checkCollisions (ew : ℚ) (enemies : List Enemy) (p : Player) : Player :=
  enemies.foldl (fun q e => (e.collided ew q).1) p

/-- Engine `update(dt)`: entity updates then collision detection. -/
def update (ew pw : ℚ) (rnd : ℕ → ℚ × ℚ) (dt : ℚ) (s : EngineState) :
    EngineState :=
  let s1 := updateEntities ew pw rnd dt s
  { s1 with player := checkCollisions ew s1.enemies s1.player }

/-- Source `readyStart`: redraw the board and put the buttons in the
ready-to-start configuration. -/
def readyStart (s : EngineState) : EngineState :=
  let s1 := renderBoard s
  { s1 with
    buttonStartDisabled := false
    buttonResetDisabled := true
    buttonStopDisabled := true }

/-- Source `stopGame`: cancel the pending animation frame only when `requestId`
is truthy, setting it to `undefined`; then `readyStart`. -/
def stopGame (s : EngineState) : EngineState :=
  let s1 :=
    if truthy s.requestId then { s with pending := false, requestId := none }
    else s
  readyStart s1

/-- Source `displayStatus`: draw a status overlay with the given text. -/
def displayStatus (txt : String) (s : EngineState) : EngineState :=
  { s with banner := some txt }

/-- Source `gameOver(outcome)`: stop the game, then draw the win or loss
banner. -/
def gameOver (outcome : String) (s : EngineState) : EngineState :=
  let s1 := stopGame s
  if outcome = "won" then displayStatus "Woo hoo! You won!" s1
  else displayStatus "Game over - you lose" s1

/-- Source `checkGameStatus`: two independent `if`s, first the loss test on the
collision counter, then the win test on the row of the player. -/
def checkGameStatus (s : EngineState) : EngineState :=
  let s1 :=
    if gsCollisionLimit ≤ s.player.collisionCount then gameOver "lost" s else s
  if s1.player.row = 0 then gameOver "won" s1 else s1

/-- Source `initGameSettings`: zero the collision counter and `requestId`, send
the player home, respawn every enemy. -/
def initGameSettings (rnd : ℕ → ℚ × ℚ) (s : EngineState) : EngineState :=
  { s with
    player :=
      let p1 := { s.player with collisionCount := 0 }
      p1.goToHome
    requestId := some 0
    enemies := s.enemies.enum.map fun ie => ie.2.spawn (rnd ie.1).1 (rnd ie.1).2 }

/-! ## The game loop tick -/

/-- The phases of one pass through `main`, in the source order of the engine. -/
inductive Phase where
  | computeDelta
  | updateEnemies
  | updatePlayer
  | collisions
  | renderPhase
  | statusCheck
  | schedule
  deriving DecidableEq, Repr

/-- Position of the first occurrence of a phase in a trace (length of the
trace when absent). -/
def phaseIdx (a : Phase) : List Phase → ℕ
  | [] => 0
  | b :: tr => if a = b then 0 else phaseIdx a tr + 1

/-- Source `main`: one tick.  Computes the delta from `lastTime`, runs
`update(dt)` (enemy updates, player pixel update, collision check), then
`render()`, then `checkGameStatus()`, stores `lastTime`, and requests the
next frame exactly when `requestId !== undefined`.  The returned trace
records the phases in the order the source executes them. -/
def mainTick (ew pw : ℚ) (rnd : ℕ → ℚ × ℚ) (now : ℚ) (s : EngineState) :
    EngineState × List Phase :=
  let dt : ℚ := (now - s.lastTime) / 1000
  let s1 := update ew pw rnd dt s
  let s2 := render s1
  let s3 := checkGameStatus s2
  let s4 := { s3 with lastTime := now }
  if s4.requestId ≠ none then
    ({ s4 with
        requestId := some (s4.nextId + 1)
        nextId := s4.nextId + 1
        pending := true },
      [Phase.computeDelta, Phase.updateEnemies, Phase.updatePlayer,
        Phase.collisions, Phase.renderPhase, Phase.statusCheck, Phase.schedule])
  else
    (s4,
      [Phase.computeDelta, Phase.updateEnemies, Phase.updatePlayer,
        Phase.collisions, Phase.renderPhase, Phase.statusCheck])

/-! ## Concrete fixtures used by closed theorems -/

/-- A player on the home square with its derived pixel position current
(`pw = 101`): `x = 2 * 101 = 202`, `y = 5 * 83 - 25 = 390`. -/
def pHome : Player := ⟨2, 5, 202, 390, 0⟩

/-- An enemy in the same pixel row as `pHome`, overlapping it from the
left (enemy right edge `281 ≥ 225` = player left edge). -/
def enemyA : Enemy := ⟨180, 390, 200⟩

/-- A second enemy in the same pixel row as `pHome`, overlapping it from
the right (enemy left edge `220 ≤ 303` = player right edge). -/
def enemyB : Enemy := ⟨220, 390, 250⟩

/-- A degenerate random source: both draws always `0`. -/
def noRnd : ℕ → ℚ × ℚ := fun _ => (0, 0)

/-- A mid-game engine state: animation running (`requestId = 1`), the
player already at two collisions, both fixture enemies on the board. -/
def sMidGame : EngineState :=
  ⟨some 1, true, 1, 5, ⟨2, 5, 0, 0, 2⟩, [enemyA, enemyB], none, none,
    true, false, false⟩

/-- A stopped engine state (`requestId` is `undefined`), player at home. -/
def sStopped : EngineState :=
  ⟨none, false, 1, 0, pHome, [], none, none, false, true, true⟩

/-- A running state in which neither end condition holds (row 4, no
collisions, no enemies). -/
def sRunning : EngineState :=
  ⟨some 1, true, 1, 0, ⟨2, 4, 202, 307, 0⟩, [], none, none,
    true, false, false⟩

/-- A running state in which the loss and win conditions hold at once:
three collisions and player row 0. -/
def sBoth : EngineState :=
  ⟨some 1, true, 1, 5, ⟨2, 0, 202, -25, 3⟩, [], none, none,
    true, false, false⟩

/-! ## Claim theorems -/

/-- Claim C1 (code bug): with the player overlapping two enemies in its
row, the collision detector registers TWO collisions, not one.  The
`Array.some` callback in `checkCollisions` drops the boolean returned by
`collided`, so it never short-circuits, and `crash` leaves the pixel
position used by the overlap test unchanged, so the second enemy also
registers.  The collision counter rises by 2, contradicting the claim
(and the comments in the source) that at most one collision is
registered per tick. -/
theorem c1_two_overlaps_register_two_collisions :
    enemyA.y = pHome.y ∧ enemyB.y = pHome.y ∧
    (enemyA.collided 101 pHome).2 = true ∧
    (enemyB.collided 101 pHome).2 = true ∧
    pHome.collisionCount = 0 ∧
    (checkCollisions 101 [enemyA, enemyB] pHome).collisionCount = 2 := by
  norm_num [Enemy.collided, checkCollisions, Player.crash, Player.goToHome,
    pHome, enemyA, enemyB, PLAYER_WIDTH_OFFSET]

/-- Claim C2 (code bug): in a tick starting from two collisions in which
the player overlaps both fixture enemies, `update` raises the counter to
4, and the subsequent `render` runs `renderScore` with the game still in
progress (`requestId` truthy), drawing `3 - 4 = -1` remaining lives: the
displayed value is negative, contradicting the claim. -/
theorem c2_renderScore_displays_negative_lives :
    truthy (update 101 101 noRnd 0 sMidGame).requestId = true ∧
    (update 101 101 noRnd 0 sMidGame).player.collisionCount = 4 ∧
    (render (update 101 101 noRnd 0 sMidGame)).scoreText = some (-1) ∧
    livesRemaining (update 101 101 noRnd 0 sMidGame).player < 0 := by
  norm_num [update, updateEntities, checkCollisions, Enemy.update, Enemy.collided,
    Enemy.spawn, Player.update, Player.crash, Player.goToHome, render,
    renderBoard, renderEntities, renderScore, truthy, livesRemaining,
    sMidGame, pHome, enemyA, enemyB, noRnd, PLAYER_WIDTH_OFFSET,
    VISIBLE_ROW_HEIGHT, ROW_HEIGHT_OFFSET, gsBoardColumns, gsCollisionLimit,
    List.enum]

/-- Claim C3 counterexample: with the game stopped (`requestId` is
`undefined`, hence not truthy), an up-arrow keyup still moves the player
from row 5 to row 4 — the movement command is not ignored. -/
theorem c3_movement_processed_while_stopped :
    truthy sStopped.requestId = false ∧
    sStopped.player.row = 5 ∧
    (keyupListener 38 sStopped).player.row = 4 := by
  norm_num [truthy, sStopped, pHome, keyupListener, allowedKeys,
    Player.handleInput, gsBoardColumns]
  decide

/-- Claim C3 (amended): the keyup listener never consults the game
state: whether or not the loop is running, a key event is forwarded to
`handleInput` and moves the player (with clamping); only the collision
counter is left unchanged. -/
theorem c3_keyup_ignores_game_state (s : EngineState) (keyCode : ℕ)
    (h : truthy s.requestId = false) :
    (keyupListener keyCode s).player
        = s.player.handleInput (allowedKeys keyCode) ∧
    (keyupListener keyCode s).player.collisionCount
        = s.player.collisionCount := by
  refine ⟨rfl, ?_⟩
  simp [keyupListener, Player.handleInput]

/-- Witness for the amended claim C3, at the stopped fixture state and
the up-arrow key code. -/
theorem c3_keyup_ignores_game_state_witness :
    truthy sStopped.requestId = false ∧
    ((keyupListener 38 sStopped).player
        = sStopped.player.handleInput (allowedKeys 38) ∧
      (keyupListener 38 sStopped).player.collisionCount
        = sStopped.player.collisionCount) :=
  ⟨by simp [truthy, sStopped], c3_keyup_ignores_game_state sStopped 38 (by simp [truthy, sStopped])⟩

/-- Every single `handleInput` call leaves the player inside the board,
whatever the incoming position: the source clamps the column to
`[0, gsBoardColumns - 1]` and the row to `[0, 5]` after moving. -/
lemma handleInput_bounds (p : Player) (k : Option String) :
    0 ≤ (p.handleInput k).col ∧ (p.handleInput k).col ≤ gsBoardColumns - 1 ∧
    0 ≤ (p.handleInput k).row ∧ (p.handleInput k).row ≤ 5 := by
  unfold Player.handleInput gsBoardColumns
  dsimp only
  split_ifs <;> omega

/-- A sequence of movement commands applied in order via `handleInput`,
as delivered by successive keyup events. -/
def applyInputs (cmds : List (Option String)) (p : Player) : Player :=
  cmds.foldl (fun q c => q.handleInput c) p

lemma applyInputs_bounds (cmds : List (Option String)) (p : Player)
    (h : 0 ≤ p.col ∧ p.col ≤ gsBoardColumns - 1 ∧ 0 ≤ p.row ∧ p.row ≤ 5) :
    0 ≤ (applyInputs cmds p).col ∧
    (applyInputs cmds p).col ≤ gsBoardColumns - 1 ∧
    0 ≤ (applyInputs cmds p).row ∧ (applyInputs cmds p).row ≤ 5 := by
  induction cmds generalizing p with
  | nil => simpa [applyInputs] using h
  | cons c cs ih =>
    simpa [applyInputs] using ih (p.handleInput c) (handleInput_bounds p c)

/-- Claim C4: starting from the home square, every sequence of movement
commands keeps the column in `[0, gsBoardColumns - 1] = [0, 4]` and the
row in `[0, 5]`; boundary-crossing commands are clamped. -/
theorem c4_movement_stays_in_bounds (p : Player)
    (cmds : List (Option String)) :
    0 ≤ (applyInputs cmds p.goToHome).col ∧
    (applyInputs cmds p.goToHome).col ≤ gsBoardColumns - 1 ∧
    0 ≤ (applyInputs cmds p.goToHome).row ∧
    (applyInputs cmds p.goToHome).row ≤ 5 := by
  refine applyInputs_bounds cmds p.goToHome ?_
  simp [Player.goToHome, gsBoardColumns]

/-- A redrawn speed lies in `[100, 400)` shifted by the adjustor, for any
random draw in `[0, 1)`. -/
lemma setSpeed_bounds (r : ℚ) (h0 : 0 ≤ r) (h1 : r < 1) :
    100 + gsEnemySpeedAdjustor ≤ setSpeed r ∧
    setSpeed r < 400 + gsEnemySpeedAdjustor := by
  unfold setSpeed
  dsimp only
  have hlo : (0 : ℤ) ≤ ⌊r * (400 - 100)⌋ := by
    apply Int.floor_nonneg.mpr
    nlinarith
  have hhi : ⌊r * (400 - 100)⌋ < 300 := by
    apply Int.floor_lt.mpr
    push_cast
    nlinarith
  constructor
  · have : (0 : ℚ) ≤ (⌊r * (400 - 100)⌋ : ℤ) := by exact_mod_cast hlo
    linarith
  · have : ((⌊r * (400 - 100)⌋ : ℤ) : ℚ) < 300 := by exact_mod_cast hhi
    linarith

/-- A redrawn row pixel value is one of the three hazard rows
(`1 * 83 - 25 = 58`, `2 * 83 - 25 = 141`, `3 * 83 - 25 = 224`), for any
random draw in `[0, 1)`. -/
lemma setRow_cases (r : ℚ) (h0 : 0 ≤ r) (h1 : r < 1) :
    setRow r = 58 ∨ setRow r = 141 ∨ setRow r = 224 := by
  unfold setRow VISIBLE_ROW_HEIGHT ROW_HEIGHT_OFFSET
  dsimp only
  have hlo : (0 : ℤ) ≤ ⌊r * (4 - 1)⌋ := by
    apply Int.floor_nonneg.mpr
    nlinarith
  have hhi : ⌊r * (4 - 1)⌋ < 3 := by
    apply Int.floor_lt.mpr
    push_cast
    nlinarith
  have h3 : ⌊r * (4 - 1)⌋ = 0 ∨ ⌊r * (4 - 1)⌋ = 1 ∨ ⌊r * (4 - 1)⌋ = 2 := by
    omega
  rcases h3 with h | h | h <;> rw [h] <;> norm_num

/-- Claim C5: `Enemy.update` adds `speed * dt` to the position; when the
result passes the track width `ew * gsBoardColumns` the enemy is
respawned in the same tick — position back to 0, row redrawn among the
three hazard rows, speed redrawn in `[100, 400)` plus the adjustor —
and otherwise only the position changes. -/
theorem c5_enemy_update_adds_and_respawns (ew r1 r2 dt : ℚ) (e : Enemy)
    (hdt : 0 ≤ dt) (h10 : 0 ≤ r1) (h11 : r1 < 1) (h20 : 0 ≤ r2)
    (h21 : r2 < 1) :
    (¬ e.x + e.speed * dt > ew * (gsBoardColumns : ℚ) →
      e.update ew r1 r2 dt = { e with x := e.x + e.speed * dt }) ∧
    (e.x + e.speed * dt > ew * (gsBoardColumns : ℚ) →
      (e.update ew r1 r2 dt).x = 0 ∧
      ((e.update ew r1 r2 dt).y = 58 ∨ (e.update ew r1 r2 dt).y = 141 ∨
        (e.update ew r1 r2 dt).y = 224) ∧
      100 + gsEnemySpeedAdjustor ≤ (e.update ew r1 r2 dt).speed ∧
      (e.update ew r1 r2 dt).speed < 400 + gsEnemySpeedAdjustor) := by
  constructor
  · intro h
    simp [Enemy.update, h]
  · intro h
    simp only [Enemy.update, Enemy.spawn]
    rw [if_pos h]
    exact ⟨rfl, setRow_cases r2 h20 h21,
      (setSpeed_bounds r1 h10 h11).1, (setSpeed_bounds r1 h10 h11).2⟩

/-- An enemy about to run off the right edge of the track, used to
witness the respawn branch of claim C5. -/
def enemyW : Enemy := ⟨600, 58, 200⟩

/-- Witness for claim C5 at `ew = 101`, `r1 = r2 = 0`, `dt = 1`, on
`enemyW`: all hypotheses hold there. -/
theorem c5_enemy_update_adds_and_respawns_witness :
    ((0 : ℚ) ≤ 1 ∧ (0 : ℚ) ≤ 0 ∧ (0 : ℚ) < 1) ∧
    ((¬ enemyW.x + enemyW.speed * 1 > 101 * (gsBoardColumns : ℚ) →
        enemyW.update 101 0 0 1 = { enemyW with x := enemyW.x + enemyW.speed * 1 }) ∧
      (enemyW.x + enemyW.speed * 1 > 101 * (gsBoardColumns : ℚ) →
        (enemyW.update 101 0 0 1).x = 0 ∧
        ((enemyW.update 101 0 0 1).y = 58 ∨ (enemyW.update 101 0 0 1).y = 141 ∨
          (enemyW.update 101 0 0 1).y = 224) ∧
        100 + gsEnemySpeedAdjustor ≤ (enemyW.update 101 0 0 1).speed ∧
        (enemyW.update 101 0 0 1).speed < 400 + gsEnemySpeedAdjustor)) :=
  ⟨⟨by norm_num, le_refl 0, by norm_num⟩,
    c5_enemy_update_adds_and_respawns 101 0 0 1 enemyW (by norm_num)
      (le_refl 0) (by norm_num) (le_refl 0) (by norm_num)⟩

/-- Claim C6 counterexample: on a tick of a running game (fixture
`sRunning`), the trace of `main` places `render` strictly before the
win/loss status check — the claim that the status evaluation happens
before rendering is false at this concrete input. -/
theorem c6_render_runs_before_status_check :
    (mainTick 101 101 noRnd 5 sRunning).2
      = [Phase.computeDelta, Phase.updateEnemies, Phase.updatePlayer,
          Phase.collisions, Phase.renderPhase, Phase.statusCheck,
          Phase.schedule] ∧
    ¬ phaseIdx Phase.statusCheck (mainTick 101 101 noRnd 5 sRunning).2
        < phaseIdx Phase.renderPhase (mainTick 101 101 noRnd 5 sRunning).2 := by
  have h : (mainTick 101 101 noRnd 5 sRunning).2
      = [Phase.computeDelta, Phase.updateEnemies, Phase.updatePlayer,
          Phase.collisions, Phase.renderPhase, Phase.statusCheck,
          Phase.schedule] := by
    norm_num [mainTick, update, updateEntities, checkCollisions, render,
      renderBoard, renderEntities, renderScore, checkGameStatus, gameOver,
      stopGame, readyStart, displayStatus, truthy, livesRemaining,
      Player.update, sRunning, noRnd, gsCollisionLimit,
      VISIBLE_ROW_HEIGHT, ROW_HEIGHT_OFFSET]
    decide
  refine ⟨h, ?_⟩
  rw [h]
  decide

/-- Claim C6 (amended): each tick runs, in order, the delta computation,
the enemy updates, the player pixel update, the collision check, then
RENDERING, then the win/loss status check, and finally schedules the
next frame exactly when `requestId` is still set after the status
check. -/
theorem c6_tick_phase_order (ew pw : ℚ) (rnd : ℕ → ℚ × ℚ) (now : ℚ)
    (s : EngineState) :
    phaseIdx Phase.computeDelta (mainTick ew pw rnd now s).2
        < phaseIdx Phase.updateEnemies (mainTick ew pw rnd now s).2 ∧
    phaseIdx Phase.updateEnemies (mainTick ew pw rnd now s).2
        < phaseIdx Phase.updatePlayer (mainTick ew pw rnd now s).2 ∧
    phaseIdx Phase.updatePlayer (mainTick ew pw rnd now s).2
        < phaseIdx Phase.collisions (mainTick ew pw rnd now s).2 ∧
    phaseIdx Phase.collisions (mainTick ew pw rnd now s).2
        < phaseIdx Phase.renderPhase (mainTick ew pw rnd now s).2 ∧
    phaseIdx Phase.renderPhase (mainTick ew pw rnd now s).2
        < phaseIdx Phase.statusCheck (mainTick ew pw rnd now s).2 ∧
    (Phase.schedule ∈ (mainTick ew pw rnd now s).2 ↔
      (checkGameStatus (render
          (update ew pw rnd ((now - s.lastTime) / 1000) s))).requestId
        ≠ none) := by
  unfold mainTick
  dsimp only
  split_ifs with h
  · refine ⟨?_, ?_, ?_, ?_, ?_, ?_⟩ <;> dsimp only
    · decide
    · decide
    · decide
    · decide
    · decide
    · simp [h]
  · have h' : (checkGameStatus (render
        (update ew pw rnd ((now - s.lastTime) / 1000) s))).requestId
          = none := by simpa using h
    refine ⟨?_, ?_, ?_, ?_, ?_, ?_⟩ <;> dsimp only
    · decide
    · decide
    · decide
    · decide
    · decide
    · simp [h']

/-- Claim C7: `stopGame` is idempotent on the whole engine state, and
after a stop `requestId` is never truthy, so `main` never schedules a
further frame on behalf of a stopped game. -/
theorem c7_stopGame_idempotent (s : EngineState) :
    stopGame (stopGame s) = stopGame s ∧
    truthy (stopGame s).requestId = false := by
  rcases hrid : s.requestId with _ | n
  · simp [stopGame, readyStart, renderBoard, renderScore, truthy, hrid]
  · rcases Nat.eq_zero_or_pos n with hn | hn
    · subst hn
      simp [stopGame, readyStart, renderBoard, renderScore, truthy, hrid]
    · have hn' : n ≠ 0 := Nat.pos_iff_ne_zero.mp hn
      simp [stopGame, readyStart, renderBoard, renderScore, truthy, hrid, hn']

/-- Claim C8 counterexample: in a state where the collision counter has
reached the limit AND the player row is 0, `checkGameStatus` runs both
`gameOver` calls and the banner finally displayed is the WON banner —
the loss does not suppress the same-tick win evaluation. -/
theorem c8_won_banner_when_both_conditions_hold :
    gsCollisionLimit ≤ sBoth.player.collisionCount ∧
    sBoth.player.row = 0 ∧
    (checkGameStatus sBoth).banner = some "Woo hoo! You won!" ∧
    ¬ (checkGameStatus sBoth).banner = some "Game over - you lose" := by
  decide

/-- Claim C8 (amended): when the loss and win conditions hold at the
same status check, both transitions fire in source order — the game is
stopped, but the banner drawn last (and therefore displayed) is the WON
banner, not the lost one. -/
theorem c8_both_conditions_end_with_won_banner (s : EngineState)
    (hlost : gsCollisionLimit ≤ s.player.collisionCount)
    (hwon : s.player.row = 0) :
    (checkGameStatus s).banner = some "Woo hoo! You won!" ∧
    truthy (checkGameStatus s).requestId = false := by
  have hlw : ("lost" : String) ≠ "won" := by decide
  rcases hrid : s.requestId with _ | n
  · simp [checkGameStatus, gameOver, stopGame, readyStart, renderBoard,
      renderScore, displayStatus, truthy, hlost, hwon, hrid, hlw]
  · rcases Nat.eq_zero_or_pos n with hn | hn
    · subst hn
      simp [checkGameStatus, gameOver, stopGame, readyStart, renderBoard,
        renderScore, displayStatus, truthy, hlost, hwon, hrid, hlw]
    · have hn' : n ≠ 0 := Nat.pos_iff_ne_zero.mp hn
      simp [checkGameStatus, gameOver, stopGame, readyStart, renderBoard,
        renderScore, displayStatus, truthy, hlost, hwon, hrid, hlw, hn']

/-- Witness for the amended claim C8, at the fixture state `sBoth`. -/
theorem c8_both_conditions_end_with_won_banner_witness :
    (gsCollisionLimit ≤ sBoth.player.collisionCount ∧
      sBoth.player.row = 0) ∧
    ((checkGameStatus sBoth).banner = some "Woo hoo! You won!" ∧
      truthy (checkGameStatus sBoth).requestId = false) :=
  ⟨⟨by norm_num [sBoth, gsCollisionLimit], by norm_num [sBoth]⟩,
    c8_both_conditions_end_with_won_banner sBoth
      (by norm_num [sBoth, gsCollisionLimit]) (by norm_num [sBoth])⟩

/-- Claim C9: for any input that is none of the four direction strings
(including `none`, the embedding of `undefined`), `handleInput` leaves
the column and row of an on-board player unchanged — the attempted moves
all miss and the clamps are no-ops inside the board. -/
theorem c9_non_direction_key_is_noop (p : Player) (k : Option String)
    (hl : k ≠ some "left") (hu : k ≠ some "up") (hr : k ≠ some "right")
    (hd : k ≠ some "down") (hc0 : 0 ≤ p.col)
    (hc1 : p.col ≤ gsBoardColumns - 1) (hr0 : 0 ≤ p.row)
    (hr1 : p.row ≤ 5) :
    (p.handleInput k).col = p.col ∧ (p.handleInput k).row = p.row := by
  have hc1' : p.col ≤ 4 := by simpa [gsBoardColumns] using hc1
  unfold Player.handleInput gsBoardColumns
  dsimp only
  rw [if_neg hl, if_neg hu, if_neg hr, if_neg hd]
  split_ifs <;> constructor <;> omega

/-- Witness for claim C9, at the home player and the `undefined` key. -/
theorem c9_non_direction_key_is_noop_witness :
    ((none : Option String) ≠ some "left" ∧
      (none : Option String) ≠ some "up" ∧
      (none : Option String) ≠ some "right" ∧
      (none : Option String) ≠ some "down" ∧
      0 ≤ pHome.col ∧ pHome.col ≤ gsBoardColumns - 1 ∧
      0 ≤ pHome.row ∧ pHome.row ≤ 5) ∧
    ((pHome.handleInput none).col = pHome.col ∧
      (pHome.handleInput none).row = pHome.row) :=
  ⟨⟨by decide, by decide, by decide, by decide, by decide, by decide,
      by decide, by decide⟩,
    c9_non_direction_key_is_noop pHome none (by decide) (by decide)
      (by decide) (by decide) (by decide) (by decide) (by decide)
      (by decide)⟩

/-- Claim C10: `crash` touches only the grid column, the grid row and
the collision counter; the derived pixel position is untouched, so a
later `collided` test in the same tick sees exactly the pre-crash pixel
position, and only the next `Player.update` recomputes `x`, `y` from the
home square. -/
theorem c10_crash_preserves_pixel_position (p : Player) :
    p.crash.x = p.x ∧ p.crash.y = p.y ∧
    p.crash.col = 2 ∧ p.crash.row = 5 ∧
    p.crash.collisionCount = p.collisionCount + 1 ∧
    (∀ (ew : ℚ) (e : Enemy),
      (e.collided ew p.crash).2 = (e.collided ew p).2) ∧
    (∀ pw : ℚ, (p.crash.update pw).x = 2 * pw ∧
      (p.crash.update pw).y = 5 * VISIBLE_ROW_HEIGHT - ROW_HEIGHT_OFFSET) := by
  refine ⟨rfl, rfl, rfl, rfl, rfl, ?_, ?_⟩
  · intro ew e
    simp only [Enemy.collided, Player.crash, Player.goToHome]
    split_ifs <;> rfl
  · intro pw
    constructor <;> simp [Player.update, Player.crash, Player.goToHome]

end Arcade
